import Mathlib

/-!
Shallow embedding of the gcode-3d serial-printer controller ("server_rust_rewrite").

The definitions below are translated from the Rust sources:
  * `src/api_manager/models.rs` — `PrintInfo`, `Line`, `SettingRow`, `BridgeAction`,
    the state/description types;
  * `src/parser.rs`            — `Parser::add_checksum`, `Parser::parse_line`,
    the temperature / resend regexes;
  * `src/bridge.rs`            — `Bridge::handle_ok_response`, the inbox task
    (`spawn_event_listener`) and the serial reader (`spawn_bridge_serial_reader`);
  * `src/main.rs`              — `Manager::connect_boot`.

Modelling conventions:
  * Rust machine integers are `Nat` (overflow/truncation made explicit with `% 2^w`
    where the source casts, e.g. `as u32`).
  * `f32`/`f64` arithmetic on ratios and progress percentages is modelled over `Rat`;
    every comparison appearing in a theorem below is evaluated at inputs where the
    rational value is far from the float threshold, so rounding cannot change the
    branch taken.
  * A Rust `panic!` (e.g. `PrintInfo::set_line_number` out of bounds, `Option::unwrap`)
    is modelled by an `Option` result, `Option.none` meaning the panic.
  * Channel sends are modelled as a list of emitted events tagged with their
    destination channel; `Uuid::new_v4()` payloads are not observable by any claim
    and message ids are carried only where the source stores them (the pending queue).
  * String handling is over `String`/`List Char`; byte-level operations use an explicit
    UTF-8 encoder so `str::bytes()` is modelled faithfully.
-/

/-- UTF-8 encoding of one character, as the list of its byte values.
Models Rust `str::bytes()` at the level of a single `char`. -/
def utf8Bytes (c : Char) : List Nat :=
  let n := c.toNat
  if n < 0x80 then [n]
  else if n < 0x800 then [0xC0 ||| (n >>> 6), 0x80 ||| (n &&& 0x3F)]
  else if n < 0x10000 then
    [0xE0 ||| (n >>> 12), 0x80 ||| ((n >>> 6) &&& 0x3F), 0x80 ||| (n &&& 0x3F)]
  else
    [0xF0 ||| (n >>> 18), 0x80 ||| ((n >>> 12) &&& 0x3F),
     0x80 ||| ((n >>> 6) &&& 0x3F), 0x80 ||| (n &&& 0x3F)]

/-- The UTF-8 byte sequence of a string (Rust `str::bytes()`). -/
def strBytes (s : String) : List Nat :=
  s.data.foldr (fun c acc => utf8Bytes c ++ acc) []

/-- Byte length of a string (Rust `str::len()`). -/
def byteLen (s : String) : Nat := (strBytes s).length

/-- Rust `line.replace(" ", "")`: removes every space character. -/
def stripSpaces (s : String) : String := ⟨s.data.filter (fun c => c ≠ ' ')⟩

/-- Rust `str::starts_with(p)` on string slices. -/
def strStarts (s p : String) : Bool := p.data.isPrefixOf s.data

/-- Rust `str::contains(p)` (substring containment). -/
def strContainsSub (s p : String) : Bool :=
  (s.data.tails).any (fun t => p.data.isPrefixOf t)

/-- Rust `str::to_lowercase()`; the strings handled by the controller are ASCII,
where Unicode lowercasing agrees with per-character ASCII lowercasing. -/
def strLower (s : String) : String := ⟨s.data.map Char.toLower⟩

/-- Rust `str::trim()` (both ends, whitespace). -/
def strTrim (s : String) : String :=
  ⟨(s.data.dropWhile Char.isWhitespace).reverse.dropWhile Char.isWhitespace |>.reverse⟩

/-- Rust `str::ends_with(p)`. -/
def strEnds (s p : String) : Bool := p.data.isSuffixOf s.data

/-- Models `BridgeState` from `src/bridge.rs` (and its copy in `models.rs`). -/
inductive BridgeState where
  | DISCONNECTED
  | CONNECTED
  | CONNECTING
  | ERRORED
  | PREPARING
  | PRINTING
  | FINISHING
deriving DecidableEq, Repr

/-- Models `StateDescription` from `src/api_manager/models.rs`; timestamps are abstracted
to `Nat` epoch values, progress is the rational model of the `f64` percentage. -/
inductive StateDescription where
  | none
  | capability (capabilities : List String)
  | error (message : String)
  | print (filename : String) (progress : Rat) (start : Nat) (endTime : Option Nat)
deriving DecidableEq, Repr

/-- Models `Line` from `src/api_manager/models.rs`. -/
structure Line where
  content : String
  line_number : Nat
deriving DecidableEq, Repr

/-- Models `PrintInfo` from `src/api_manager/models.rs` (timestamps abstracted to `Nat`). -/
structure PrintInfo where
  filename : String
  filesize : Nat
  data_sent : Nat
  gcode : List String
  start : Nat
  endTime : Option Nat
  line_number : Nat
  resend_amount : Nat
deriving DecidableEq, Repr

namespace PrintInfo

/-- Models `PrintInfo::new`. -/
def new (filename : String) (filesize : Nat) (gcode : List String) (start : Nat) :
    PrintInfo :=
  { filename := filename, filesize := filesize, data_sent := 0, gcode := gcode,
    start := start, endTime := Option.none, line_number := 0, resend_amount := 0 }

/-- Models `PrintInfo::report_resend`. -/
def report_resend (pi : PrintInfo) : PrintInfo :=
  { pi with resend_amount := pi.resend_amount + 1 }

/-- Models `PrintInfo::get_resend_ratio`: `(resend_amount as f32 / gcode.len() as f32) * 100.0`,
modelled over `Rat` (note the multiplication by 100: the result is a percentage). -/
def get_resend_ratio (pi : PrintInfo) : Rat :=
  ((pi.resend_amount : Rat) / (pi.gcode.length : Rat)) * 100

/-- Models `PrintInfo::get_line_by_index` (via `get_line_content_by_index`, i.e. `gcode.get`). -/
def get_line_by_index (pi : PrintInfo) (index : Nat) : Option Line :=
  (pi.gcode.get? index).map (fun content => { content := content, line_number := index })

/-- Models `PrintInfo::set_line_number`; the source `panic!`s when
`line_number > gcode.len() + 1`, modelled as `Option.none`. -/
def set_line_number (pi : PrintInfo) (n : Nat) : Option PrintInfo :=
  if n > pi.gcode.length + 1 then Option.none
  else Option.some { pi with line_number := n }

/-- Models `PrintInfo::progress`: `(data_sent / filesize) * 100`, 0 when `filesize == 0`. -/
def progress (pi : PrintInfo) : Rat :=
  if pi.filesize = 0 then 0
  else ((pi.data_sent : Rat) / (pi.filesize : Rat)) * 100

/-- Models `PrintInfo::add_bytes_sent` (no-op when `filesize == 0`). -/
def add_bytes_sent (pi : PrintInfo) (bytes : Nat) : PrintInfo :=
  if pi.filesize = 0 then pi else { pi with data_sent := pi.data_sent + bytes }

end PrintInfo

/-- Models `Message` from `src/api_manager/models.rs`; the `Uuid` is abstracted to `Nat`. -/
structure Message where
  content : String
  id : Nat
deriving DecidableEq, Repr

/-- Models `BridgeAction` from `src/api_manager/models.rs`. -/
inductive BridgeAction where
  | Continue (line : Option Nat)
  | Error
  | Resend (line : Nat)
deriving DecidableEq, Repr

/-- Models `Parser::add_checksum` from `src/parser.rs`: strip spaces, prefix `N<index>`,
XOR the UTF-8 bytes of the prefixed form (`cs &= 0xff` kept as in the source),
append `*<checksum>` in decimal. -/
def add_checksum (linenr : Nat) (line : String) : String :=
  let line := stripSpaces line
  let line := "N" ++ toString linenr ++ line
  let cs := (strBytes line).foldl (fun cs byte => Nat.xor cs byte) 0
  let cs := cs &&& 0xff
  line ++ "*" ++ toString cs

/-- Destination channel of an emitted event: the global distributor
(`self.distributor`) or the bridge's own inbox (`bridge_sender`). -/
inductive Dest where
  | distributor
  | bridgeSender
deriving DecidableEq, Repr

/-- The event payloads the modelled code emits, translated from the
`EventType::Bridge(..)` / `EventType::Websocket(..)` constructions used in
`src/bridge.rs`, `src/parser.rs` and `src/main.rs`.  `tempUpdate` carries the raw
temperature line; `Parser::parse_temperature`, which maps it to the structured
report, is not part of the sources and no claim depends on its payload. -/
inductive EvtBody where
  | terminalSend (message : String)
  | printEnd
  | bridgeStateUpdate (state : BridgeState) (description : StateDescription)
  | wsStateUpdate (state : BridgeState) (description : StateDescription)
  | wsTerminalRead (message : String)
  | wsTerminalSend (message : String)
  | wsTempUpdate (line : String)
deriving DecidableEq, Repr

/-- An emitted event: destination channel plus payload. -/
abbrev Evt : Type := Dest × EvtBody

/-- Rounding to one decimal place: models `format!("{:.1}", x).parse::<f64>()`. -/
def round1 (q : Rat) : Rat := ((round (q * 10) : Int) : Rat) / 10

/-- Result of `Bridge::handle_ok_response`: the new shared state
(`print_info`, pending-write `queue`, `ready` gate) plus the events sent. -/
structure HOkRes where
  print_info : Option PrintInfo
  queue : List Message
  ready : Bool
  events : List Evt
deriving DecidableEq, Repr

/-- The `Printing`/`Continue` tail of `handle_ok_response` (bridge.rs lines 205-246):
line missing → `PrintEnd` to the distributor; otherwise account the bytes, possibly
publish a progress `StateUpdate`, and submit the checksummed wire line on the
bridge inbox. -/
def continuePrint (pi1 : PrintInfo) (line : Option Line) (queue : List Message)
    (ready : Bool) : HOkRes :=
  match line with
  | Option.none =>
    { print_info := Option.some pi1, queue := queue, ready := ready,
      events := [(Dest.distributor, EvtBody.printEnd)] }
  | Option.some l =>
    let prev := round1 pi1.progress
    let pi2 := pi1.add_bytes_sent (byteLen l.content)
    let difference := round1 pi2.progress - prev
    let progressEvs : List Evt :=
      if difference > 1/10 then
        [(Dest.distributor, EvtBody.wsStateUpdate BridgeState.PRINTING
            (StateDescription.print pi2.filename pi2.progress pi2.start pi2.endTime))]
      else []
    { print_info := Option.some pi2, queue := queue, ready := ready,
      events := progressEvs ++
        [(Dest.bridgeSender, EvtBody.terminalSend (add_checksum l.line_number l.content))] }

/-- Models `Bridge::handle_ok_response` (bridge.rs lines 171-331), as a pure function of the
parsed `BridgeAction`, the current phase, and the three shared data
(`print_info`, pending queue, `ready` gate).  `Option.none` models a `panic!`
(reached through `PrintInfo::set_line_number`). -/
def handle_ok_response (action : BridgeAction) (state : BridgeState)
    (printInfo : Option PrintInfo) (queue : List Message) (ready : Bool) :
    Option HOkRes :=
  match action with
  | BridgeAction.Continue lineNumber =>
    match state with
    | BridgeState.PRINTING =>
      match printInfo with
      | Option.none =>
        Option.some { print_info := printInfo, queue := queue, ready := ready, events := [] }
      | Option.some pi =>
        match lineNumber with
        | Option.some n =>
          let line := pi.get_line_by_index (n + 1)
          match pi.set_line_number n with
          | Option.none => Option.none
          | Option.some pi1 => Option.some (continuePrint pi1 line queue ready)
        | Option.none =>
          if pi.line_number = 0 then
            match pi.set_line_number 1 with
            | Option.none => Option.none
            | Option.some pi1 =>
              Option.some (continuePrint pi1 (pi.get_line_by_index 1) queue ready)
          else
            Option.some { print_info := Option.some pi, queue := queue, ready := ready,
                          events := [] }
    | BridgeState.CONNECTED =>
      match queue with
      | [] =>
        Option.some { print_info := printInfo, queue := [], ready := true, events := [] }
      | m :: rest =>
        Option.some { print_info := printInfo, queue := rest, ready := ready,
                      events := [(Dest.bridgeSender, EvtBody.terminalSend m.content)] }
    | _ =>
      Option.some { print_info := printInfo, queue := queue, ready := ready, events := [] }
  | BridgeAction.Error =>
    Option.some { print_info := printInfo, queue := queue, ready := ready,
                  events := [(Dest.distributor,
                    EvtBody.bridgeStateUpdate BridgeState.ERRORED
                      (StateDescription.error
                        "Bridge encountered unknown error.\n See terminal for more info"))] }
  | BridgeAction.Resend n =>
    match state with
    | BridgeState.PRINTING =>
      match printInfo with
      | Option.none =>
        Option.some { print_info := printInfo, queue := queue, ready := ready, events := [] }
      | Option.some pi =>
        let pi1 := pi.report_resend
        if pi1.get_resend_ratio > 1/10 then
          Option.some { print_info := Option.some pi1, queue := queue, ready := ready,
                        events := [(Dest.distributor,
                          EvtBody.bridgeStateUpdate BridgeState.ERRORED
                            (StateDescription.error
                              "Resend ratio went above 10%.\n Consider checking your connection"))] }
        else
          let line := pi1.get_line_by_index n
          match pi1.set_line_number n with
          | Option.none => Option.none
          | Option.some pi2 =>
            match line with
            | Option.some l =>
              Option.some { print_info := Option.some pi2, queue := queue, ready := ready,
                            events := [(Dest.bridgeSender,
                              EvtBody.terminalSend (add_checksum l.line_number l.content))] }
            | Option.none =>
              Option.some { print_info := Option.some pi2, queue := queue, ready := ready,
                            events := [(Dest.distributor,
                              EvtBody.bridgeStateUpdate BridgeState.ERRORED
                                (StateDescription.error "Cannot resend line"))] }
    | _ =>
      Option.some { print_info := printInfo, queue := queue, ready := ready, events := [] }

/-- Character class `[\d\.]` of the temperature regex. -/
def isDigitOrDot (c : Char) : Bool := c.isDigit || c = '.'

/-- Matching the tail `:([\d\.]+) ?/([\d\.]+)` of the temperature pattern at the
head of the character list. -/
def tempMatchColon (cs : List Char) : Bool :=
  match cs with
  | ':' :: rest =>
    if (rest.takeWhile isDigitOrDot).isEmpty then false
    else
      match rest.dropWhile isDigitOrDot with
      | '/' :: rest3 => !(rest3.takeWhile isDigitOrDot).isEmpty
      | ' ' :: '/' :: rest3 => !(rest3.takeWhile isDigitOrDot).isEmpty
      | _ => false
  | _ => false

/-- Matching one group `(T\d?):([\d\.]+) ?/([\d\.]+)` at the head of the list.
Backtracking cannot help the `\d?` or the greedy `[\d\.]+` runs here (a shorter
run would have to match `/` or a space against a digit-or-dot), so the greedy
deterministic scan is equivalent to the regex engine's search. -/
def tempMatchAt (cs : List Char) : Bool :=
  match cs with
  | 'T' :: c :: rest => if c.isDigit then tempMatchColon rest else tempMatchColon (c :: rest)
  | _ => false

/-- Models `TOOLTEMPREGEX.is_match` for `((T\d?):([\d\.]+) ?/([\d\.]+))+`
(an unanchored `is_match` of a repeated group holds iff one group matches somewhere). -/
def tempIsMatch (s : String) : Bool := s.data.tails.any tempMatchAt

/-- Decimal digits to a number (for regex capture groups). -/
def digitsToNat (ds : List Char) : Nat :=
  ds.foldl (fun a c => a * 10 + (c.toNat - 48)) 0

/-- Matching `Resend: N?:?(\d+)` at the head of the list, returning the capture. -/
def resendNumAt (cs : List Char) : Option Nat :=
  if ("Resend: ".data).isPrefixOf cs then
    let rest := cs.drop 8
    let rest := match rest with | 'N' :: r => r | r => r
    let rest := match rest with | ':' :: r => r | r => r
    let ds := rest.takeWhile Char.isDigit
    if ds.isEmpty then Option.none else Option.some (digitsToNat ds)
  else Option.none

/-- Models `RESEND.is_match` for `Resend: N?:?(\d+)`. -/
def resendIsMatch (s : String) : Bool := s.data.tails.any (fun t => (resendNumAt t).isSome)

/-- Models `RESEND.captures(input)[1]` (leftmost match's digit capture);
the `0` default is never reached when `resendIsMatch` holds. -/
def resendCapture (s : String) : Nat := (s.data.tails.findSome? resendNumAt).getD 0

/-- Matching `ok N(\d+)` at the head of the list, returning the capture. -/
def okNumAt (cs : List Char) : Option Nat :=
  if ("ok N".data).isPrefixOf cs then
    let ds := (cs.drop 4).takeWhile Char.isDigit
    if ds.isEmpty then Option.none else Option.some (digitsToNat ds)
  else Option.none

/-- Models `LINENR.captures` for `ok N(\d+)`: the acknowledged line number, if any. -/
def okLineNum (s : String) : Option Nat := s.data.tails.findSome? okNumAt

/-- Modelled from the spec: `Parser::parse_responses` is called by
`Bridge::handle_ok_response` but its definition is not among the source files.
Spec §4.1: "Scans the batch for `Resend` first; then for non-suppressed `Error`;
else `Continue` with the last `Ok`'s ack number." -/
def parse_responses (lines : List String) : BridgeAction :=
  match lines.findSome? (fun l => l.data.tails.findSome? resendNumAt) with
  | Option.some n => BridgeAction.Resend n
  | Option.none =>
    if lines.any (fun l => strStarts (strLower l) "error" &&
        !(strStarts l "Error:Line Number is not Last Line Number+1")) then
      BridgeAction.Error
    else
      match (lines.filter (fun l => strStarts l "ok")).getLast? with
      | Option.none => BridgeAction.Continue Option.none
      | Option.some l => BridgeAction.Continue (okLineNum l)

/-- Modelled from the spec: `PrintInfo::get_next_line`, used by
`Parser::handle_print`, is not among the source files.  Per §4.3/§4.4.1 it
advances the cursor and returns the next stored line, or nothing at the end of
the job. -/
def get_next_line (pi : PrintInfo) : Option (Line × PrintInfo) :=
  let n := pi.line_number + 1
  match pi.gcode.get? n with
  | Option.some c => Option.some ({ content := c, line_number := n },
      { pi with line_number := n })
  | Option.none => Option.none

/-- Models `Parser::handle_print` (parser.rs lines 128-180): fetch the next line;
if the job is exhausted publish `PrintEnd`, otherwise account the bytes, possibly
publish a progress update, and submit the checksummed line on the bridge inbox. -/
def handle_print (pi : PrintInfo) : PrintInfo × List Evt :=
  match get_next_line pi with
  | Option.none => (pi, [(Dest.distributor, EvtBody.printEnd)])
  | Option.some (l, pi1) =>
    let prev := round1 pi1.progress
    let pi2 := pi1.add_bytes_sent (byteLen l.content)
    let difference := round1 pi2.progress - prev
    let progressEvs : List Evt :=
      if difference > 1/10 then
        [(Dest.distributor, EvtBody.wsStateUpdate BridgeState.PRINTING
            (StateDescription.print pi2.filename pi2.progress pi2.start pi2.endTime))]
      else []
    (pi2, progressEvs ++
      [(Dest.bridgeSender, EvtBody.terminalSend (add_checksum l.line_number l.content))])

/-- Models `Parser::send_raw`: a `TerminalSend` on the distributor followed by the
terminal echo. -/
def send_raw (content : String) : List Evt :=
  [(Dest.distributor, EvtBody.terminalSend content),
   (Dest.distributor, EvtBody.wsTerminalRead content)]

/-- Result of `Parser::parse_line`: updated shared state plus emitted events. -/
structure ParseLineRes where
  print_info : Option PrintInfo
  ready : Bool
  queue : List Message
  events : List Evt
deriving DecidableEq, Repr

/-- Models `Parser::parse_line` (parser.rs lines 34-116).  `Option.none` models a
panic (`print_info.unwrap()` in the resend branch).  The 1-second sleeps are not
observable here.  The resent payload in the resend branch is rendered through
`add_checksum` (modelled from the spec §4.4.1: resends retransmit the wire form);
no claim depends on that branch. -/
def parse_line (input : String) (state : BridgeState) (printInfo : Option PrintInfo)
    (ready : Bool) (queue : List Message) : Option ParseLineRes :=
  match (if strStarts (strTrim input) "ok" then queue else []) with
  | m :: rest => Option.some { print_info := printInfo, ready := true, queue := rest,
                               events := send_raw m.content }
  | [] =>
    let ready := if strStarts (strTrim input) "ok" then true else ready
    if tempIsMatch input then
      Option.some { print_info := printInfo, ready := ready, queue := queue,
                    events := [(Dest.distributor, EvtBody.wsTempUpdate input)] }
    else if state = BridgeState.PRINTING ∧ resendIsMatch input then
      match printInfo with
      | Option.none => Option.none
      | Option.some pi =>
        let number := resendCapture input
        match pi.get_line_by_index number with
        | Option.none =>
          Option.some { print_info := Option.some pi, ready := ready, queue := queue,
                        events := [(Dest.distributor,
                          EvtBody.bridgeStateUpdate BridgeState.ERRORED
                            (StateDescription.error
                              "Requested resend message is not found in gcode cache\nStopping print"))] }
        | Option.some l =>
          match pi.set_line_number number with
          | Option.none => Option.none
          | Option.some pi1 =>
            Option.some { print_info := Option.some pi1, ready := ready, queue := queue,
                          events := send_raw (add_checksum l.line_number l.content) }
    else if state = BridgeState.PRINTING ∧ strStarts (strTrim input) "ok" then
      match printInfo with
      | Option.some pi =>
        let (pi2, evs) := handle_print pi
        Option.some { print_info := Option.some pi2, ready := ready, queue := queue,
                      events := evs ++ [(Dest.distributor, EvtBody.wsTerminalRead input)] }
      | Option.none =>
        Option.some { print_info := printInfo, ready := ready, queue := queue,
                      events := [(Dest.distributor, EvtBody.wsTerminalRead input)] }
    else if state = BridgeState.PRINTING ∧
        strStarts (strLower (strTrim input)) "echo:busy: processing" then
      Option.some { print_info := printInfo, ready := ready, queue := queue, events := [] }
    else if strStarts (strLower input) "error" then
      if strStarts input "Error:Line Number is not Last Line Number+1," then
        Option.some { print_info := printInfo, ready := ready, queue := queue, events := [] }
      else
        Option.some { print_info := printInfo, ready := ready, queue := queue,
                      events := [(Dest.distributor,
                        EvtBody.bridgeStateUpdate BridgeState.ERRORED
                          (StateDescription.error input))] }
    else
      Option.some { print_info := printInfo, ready := ready, queue := queue,
                    events := [(Dest.distributor, EvtBody.wsTerminalRead input)] }

/-- Inbox events consumed by `Bridge::spawn_event_listener`, translated from the
`match event.event_type` arms in bridge.rs lines 591-691. -/
inductive InEvent where
  | kill
  | terminalSend (message : String) (id : Nat)
  | printEnd
  | printStart (info : PrintInfo)
  | stateUpdate (state : BridgeState) (description : StateDescription)
  | other
deriving DecidableEq, Repr

/-- State owned or shared by the inbox task: the phase from the shared snapshot
(read but never written by this task), the print job, the cancel flag, the
pending-write queue, the `ready` ACK gate, and the serial writes performed. -/
structure ListenerState where
  phase : BridgeState
  print_info : Option PrintInfo
  canceled : Bool
  queue : List Message
  ready : Bool
  writes : List String
deriving DecidableEq, Repr

/-- One iteration outcome of the inbox task: continue looping, or return from the
task (the `break` on `Kill` and the two `return ()` arms). -/
inductive StepOut where
  | cont (s : ListenerState) (events : List Evt)
  | halt (s : ListenerState) (events : List Evt)
deriving DecidableEq, Repr

/-- Models one event-handling iteration of `Bridge::spawn_event_listener`
(bridge.rs lines 589-695).  Serial writes are modelled as succeeding (the write
error path changes no state handled by any claim). -/
def listenerStep (s : ListenerState) (e : InEvent) : StepOut :=
  match e with
  | InEvent.kill => StepOut.halt { s with canceled := true } []
  | InEvent.terminalSend message id =>
    let message := if strEnds message "\n" then message else message ++ "\n"
    if s.phase = BridgeState.CONNECTED ∧ s.ready = false then
      StepOut.cont { s with queue := s.queue ++ [{ content := message, id := id }] } []
    else
      -- in the `Connected` fall-through the source executes `*ready.lock().await = true`
      StepOut.cont
        { s with ready := if s.phase = BridgeState.CONNECTED then true else s.ready,
                 writes := s.writes ++ [message] }
        [(Dest.distributor, EvtBody.wsTerminalSend message)]
  | InEvent.printEnd =>
    if s.phase ≠ BridgeState.PRINTING then StepOut.halt s []
    else
      StepOut.cont { s with print_info := Option.none }
        [(Dest.distributor,
          EvtBody.bridgeStateUpdate BridgeState.CONNECTED StateDescription.none)]
  | InEvent.printStart info =>
    if s.phase ≠ BridgeState.CONNECTED then StepOut.halt s []
    else
      StepOut.cont { s with print_info := Option.some info }
        [(Dest.distributor, EvtBody.bridgeStateUpdate BridgeState.PRINTING
            (StateDescription.print info.filename info.progress info.start info.endTime)),
         (Dest.distributor, EvtBody.terminalSend "M110 N0")]
  | InEvent.stateUpdate st _ =>
    if st = BridgeState.CONNECTED then StepOut.cont { s with ready := true } []
    else StepOut.cont s []
  | InEvent.other => StepOut.cont s []

/-- Runs the inbox task over a list of queued events; the third component is the
list of events left unprocessed because the task returned. -/
def listenerRun (s : ListenerState) : List InEvent → ListenerState × List Evt × List InEvent
  | [] => (s, [], [])
  | e :: rest =>
    match listenerStep s e with
    | StepOut.halt s1 evs => (s1, evs, rest)
    | StepOut.cont s1 evs =>
      let r := listenerRun s1 rest
      (r.1, evs ++ r.2.1, r.2.2)

/-- State touched by the serial reader task (`Bridge::spawn_bridge_serial_reader`):
the shared phase (read, never written, by this task), the shared print job /
pending queue / `ready` gate, the local response batch, the capability sub-state,
and the direct serial writes (`M115` retries). -/
structure ReaderState where
  phase : BridgeState
  print_info : Option PrintInfo
  queue : List Message
  ready : Bool
  collected_responses : List String
  has_collected_capabilities : Bool
  commands_left_to_send : List String
  serialWrites : List String
deriving DecidableEq, Repr

/-- The follow-up commands pushed onto `commands_left_to_send` while scanning a
capability batch (bridge.rs lines 442-462): `M155 S2` for each line containing
`Cap:AUTOREPORT_TEMP:1`, `M501` for each line containing `Cap:EEPROM:1`. -/
def fUpStep (acc : List String) (cap : String) : List String :=
  let acc1 := if strContainsSub cap "Cap:AUTOREPORT_TEMP:1" then acc ++ ["M155 S2"] else acc
  if strContainsSub cap "Cap:EEPROM:1" then acc1 ++ ["M501"] else acc1

/-- Accumulation of the follow-up queue over the whole batch. -/
def queuedFollowUps (caps : List String) : List String := caps.foldl fUpStep []

/-- Models the `Connecting`-phase handling of one complete line in the serial
reader (bridge.rs lines 381-479).  Note: after an `error` line the state update
is only published on the distributor; the shared phase read back at line 397 is
still `Connecting` in this sequential model, so the dispatch branch still runs. -/
def readerStepConnecting (s : ReaderState) (collected : String) : ReaderState × List Evt :=
  let errEvs : List Evt :=
    if strStarts (strLower collected) "error" then
      [(Dest.distributor, EvtBody.bridgeStateUpdate BridgeState.ERRORED
          (StateDescription.error collected))]
    else []
  if s.has_collected_capabilities then
    match s.commands_left_to_send with
    | [] =>
      ({ s with collected_responses := [] },
       errEvs ++ [(Dest.distributor, EvtBody.bridgeStateUpdate BridgeState.CONNECTED
         (StateDescription.capability s.collected_responses))])
    | c :: cs =>
      -- `Vec::pop` removes and returns the LAST element
      ({ s with commands_left_to_send := (c :: cs).dropLast },
       errEvs ++ [(Dest.distributor,
         EvtBody.terminalSend ((c :: cs).getLast (by simp)))])
  else if strStarts collected "ok" then
    match s.collected_responses with
    | [] => (s, errEvs)
    | first :: _ =>
      if !(strStarts first "FIRMWARE_NAME:Marlin") then
        ({ s with collected_responses := [],
                  serialWrites := s.serialWrites ++ ["M115\n"] }, errEvs)
      else
        ({ s with commands_left_to_send :=
                    s.commands_left_to_send ++ queuedFollowUps s.collected_responses,
                  collected_responses := s.collected_responses ++ [collected],
                  has_collected_capabilities := true },
         errEvs ++ [(Dest.distributor, EvtBody.terminalSend "G90")])
  else
    ({ s with collected_responses := s.collected_responses ++ [collected] }, errEvs)

/-- Models the non-`Connecting` handling of one complete line in the serial reader
(bridge.rs lines 480-515): temperature lines become `TempUpdate` (and are not
echoed), other lines are batched and echoed as `TerminalRead`; a line starting
with `ok` additionally runs `handle_ok_response` on the batch. -/
def readerStepOther (s : ReaderState) (collected : String) : Option (ReaderState × List Evt) :=
  let s1 :=
    if tempIsMatch collected then s
    else { s with collected_responses := s.collected_responses ++ [collected] }
  let evs1 : List Evt :=
    if tempIsMatch collected then [(Dest.distributor, EvtBody.wsTempUpdate collected)]
    else [(Dest.distributor, EvtBody.wsTerminalRead collected)]
  if strStarts collected "ok" then
    match handle_ok_response (parse_responses s1.collected_responses) s1.phase
        s1.print_info s1.queue s1.ready with
    | Option.none => Option.none
    | Option.some r =>
      Option.some ({ s1 with collected_responses := [], print_info := r.print_info,
                             queue := r.queue, ready := r.ready }, evs1 ++ r.events)
  else Option.some (s1, evs1)

/-- Models the serial reader's handling of one complete line (dispatch on the
shared phase, bridge.rs line 381). -/
def readerStep (s : ReaderState) (collected : String) : Option (ReaderState × List Evt) :=
  if s.phase = BridgeState.CONNECTING then Option.some (readerStepConnecting s collected)
  else readerStepOther s collected

/-- Runs the serial reader over a list of complete received lines;
`Option.none` models a panic inside `handle_ok_response`. -/
def readerRun (s : ReaderState) : List String → Option (ReaderState × List Evt)
  | [] => Option.some (s, [])
  | l :: rest =>
    match readerStep s l with
    | Option.none => Option.none
    | Option.some (s1, evs) =>
      match readerRun s1 rest with
      | Option.none => Option.none
      | Option.some (s2, evs2) => Option.some (s2, evs ++ evs2)

/-- Models `SettingRow` from `src/api_manager/models.rs`. -/
structure SettingRow where
  id : String
  raw_value : String
  row_type : Nat
  bool : Option Bool
  number : Option Nat
  float : Option Rat
deriving DecidableEq, Repr

/-- Rust `str::parse::<u64>()`: optional sign, then decimal digits, value bounded
by `u64::MAX`; `Option.none` is the parse error. -/
def parseU64 (s : String) : Option Nat :=
  let ds := match s.data with
    | '+' :: r => r
    | r => r
  if ds ≠ [] ∧ ds.all Char.isDigit ∧ digitsToNat ds < 2 ^ 64 then
    Option.some (digitsToNat ds)
  else Option.none

/-- Decimal fragment of Rust `str::parse::<f64>()`, over `Rat`; only reached for
settings rows of type 3, which no claim exercises. -/
def parseF64 (s : String) : Option Rat :=
  let (sign, ds) : Rat × List Char := match s.data with
    | '-' :: r => (-1, r)
    | '+' :: r => (1, r)
    | r => (1, r)
  let intPart := ds.takeWhile Char.isDigit
  match ds.dropWhile Char.isDigit with
  | [] => if intPart ≠ [] then Option.some (sign * (digitsToNat intPart : Rat)) else Option.none
  | '.' :: frac =>
    if frac.all Char.isDigit ∧ (intPart ≠ [] ∨ frac ≠ []) then
      Option.some (sign * ((digitsToNat intPart : Rat) +
        (digitsToNat frac : Rat) / ((10 : Rat) ^ frac.length)))
    else Option.none
  | _ => Option.none

/-- Models `SettingRow::from_row` (models.rs lines 70-107): derive the typed
fields from the raw value and the row type; `Option.none` is the
`parse().unwrap()` panic. -/
def SettingRow.from_row (id value : String) (row_type : Nat) : Option SettingRow :=
  if row_type = 1 then
    Option.some { id := id, raw_value := value, row_type := row_type,
                  bool := Option.some (value = "1" ∨ value = "true" : Bool),
                  number := Option.none, float := Option.none }
  else if row_type = 2 then
    if value.data.length = 0 then
      Option.some { id := id, raw_value := value, row_type := row_type,
                    bool := Option.none, number := Option.some 0, float := Option.none }
    else
      match parseU64 value with
      | Option.none => Option.none
      | Option.some n =>
        Option.some { id := id, raw_value := value, row_type := row_type,
                      bool := Option.none, number := Option.some n, float := Option.none }
  else if row_type = 3 then
    if value.data.length = 0 then
      Option.some { id := id, raw_value := value, row_type := row_type,
                    bool := Option.none, number := Option.none, float := Option.some 0 }
    else
      match parseF64 value with
      | Option.none => Option.none
      | Option.some q =>
        Option.some { id := id, raw_value := value, row_type := row_type,
                      bool := Option.none, number := Option.none, float := Option.some q }
  else
    Option.some { id := id, raw_value := value, row_type := row_type,
                  bool := Option.none, number := Option.none, float := Option.none }

/-- The row scan inside `Manager::connect_boot` (main.rs lines 430-438):
accumulates `(address, baud_rate, connect)`; `Option.none` models the
`row.bool.unwrap()` / `row.number.unwrap()` panics.  The baud is cast
`as u32`, i.e. truncated modulo `2^32`. -/
def connectBootFold : List SettingRow → (Option String × Nat × Bool) →
    Option (Option String × Nat × Bool)
  | [], acc => Option.some acc
  | row :: rest, (address, baud, connect) =>
    if row.id = "B_startOnBoot" then
      match row.bool with
      | Option.none => Option.none
      | Option.some b => connectBootFold rest (address, baud, b)
    else if row.id = "S_devicePath" then
      connectBootFold rest (Option.some row.raw_value, baud, connect)
    else if row.id = "N_deviceBaud" then
      match row.number with
      | Option.none => Option.none
      | Option.some n => connectBootFold rest (address, n % 2 ^ 32, connect)
    else connectBootFold rest (address, baud, connect)

/-- Models `Manager::connect_boot` (main.rs lines 416-452), from the fetched
settings rows onwards.  Result: `Option.none` = panic; `Option.some Option.none` =
no `ConnectionCreate` submitted; `Option.some (Option.some (a, p))` =
`ConnectionCreate { address := a, port := p }` submitted. -/
def connect_boot (rows : List SettingRow) : Option (Option (String × Nat)) :=
  if rows.length = 3 then
    match connectBootFold rows (Option.none, 0, false) with
    | Option.none => Option.none
    | Option.some (address, baud, connect) =>
      if connect ∧ baud ≠ 0 ∧ address.isSome then
        Option.some (Option.some (address.getD "", baud))
      else Option.some Option.none
  else Option.some Option.none

/-- The messages submitted on the bridge inbox (`bridge_sender`) as `TerminalSend`
events, in order: the "next Send" of the decision handling. -/
def bridgeSends (evs : List Evt) : List String :=
  evs.filterMap (fun e => match e with
    | (Dest.bridgeSender, EvtBody.terminalSend m) => Option.some m
    | _ => Option.none)

/-- The `TerminalRead` (terminal-in) payloads published, in order. -/
def terminalReads (evs : List Evt) : List String :=
  evs.filterMap (fun e => match e with
    | (_, EvtBody.wsTerminalRead m) => Option.some m
    | _ => Option.none)

/-- The `TempUpdate` payloads published, in order. -/
def tempUpdates (evs : List Evt) : List String :=
  evs.filterMap (fun e => match e with
    | (_, EvtBody.wsTempUpdate m) => Option.some m
    | _ => Option.none)

/-- A 20-line job with no resends yet (scenario 4 of the spec). -/
def c1Job : PrintInfo := PrintInfo.new "benchy.gcode" 60 (List.replicate 20 "G1") 0

/-- Inbox-task state: phase `Connected`, ACK gate open, nothing queued. -/
def c2Start : ListenerState :=
  { phase := BridgeState.CONNECTED, print_info := Option.none, canceled := false,
    queue := [], ready := true, writes := [] }

/-- A 100-line job paused at cursor 5 (scenario 3 of the spec); line `i` reads
`G1 X<i>`. -/
def c3Job : PrintInfo :=
  { PrintInfo.new "cube.gcode" 300 ((List.range 100).map (fun i => "G1 X" ++ toString i)) 0
      with line_number := 5 }

/-- A 2000-line job with no resends yet: large enough that one recorded resend
passes the (buggy) ratio gate, so the resend lookup is reached. -/
def c5Job : PrintInfo := PrintInfo.new "big.gcode" 4000 (List.replicate 2000 "G1") 0

/-- Inbox-task state: phase `Connecting` (so `StartPrint` is a wrong-phase command). -/
def c7Start : ListenerState :=
  { phase := BridgeState.CONNECTING, print_info := Option.none, canceled := false,
    queue := [], ready := true, writes := [] }

/-- Inbox-task state: phase `Connected` and idle (so a stray `EndPrint` is a
wrong-phase command). -/
def c7Connected : ListenerState :=
  { phase := BridgeState.CONNECTED, print_info := Option.none, canceled := false,
    queue := [], ready := true, writes := [] }

/-- Serial-reader state at the start of the capability probe. -/
def c8Start : ReaderState :=
  { phase := BridgeState.CONNECTING, print_info := Option.none, queue := [], ready := true,
    collected_responses := [], has_collected_capabilities := false,
    commands_left_to_send := [], serialWrites := [] }

/-- Serial-reader state in phase `Connected` (for the terminal/temperature routing). -/
def c10Start : ReaderState :=
  { phase := BridgeState.CONNECTED, print_info := Option.none, queue := [], ready := true,
    collected_responses := [], has_collected_capabilities := false,
    commands_left_to_send := [], serialWrites := [] }

/-- Reader state mid-capability-handshake: batch recorded, one follow-up queued. -/
def c8WitState : ReaderState :=
  { c8Start with has_collected_capabilities := true,
                 commands_left_to_send := ["M501"],
                 collected_responses := ["x"] }

/-- The `B_startOnBoot` settings row holding `"1"` (boolean type). -/
def c9RowBoot : SettingRow :=
  { id := "B_startOnBoot", raw_value := "1", row_type := 1,
    bool := Option.some true, number := Option.none, float := Option.none }

/-- The `S_devicePath` settings row holding the empty string (string type). -/
def c9RowPath : SettingRow :=
  { id := "S_devicePath", raw_value := "", row_type := 0,
    bool := Option.none, number := Option.none, float := Option.none }

/-- The `N_deviceBaud` settings row holding `"115200"` (number type). -/
def c9RowBaud : SettingRow :=
  { id := "N_deviceBaud", raw_value := "115200", row_type := 2,
    bool := Option.none, number := Option.some 115200, float := Option.none }

/-- The events the reader publishes for one temperature line followed by two
plain lines. -/
def c10Evs : List Evt :=
  [(Dest.distributor, EvtBody.wsTempUpdate "T:20.0 /0.0 B:21.3 /0.0"),
   (Dest.distributor, EvtBody.wsTerminalRead "echo:Unknown command"),
   (Dest.distributor, EvtBody.wsTerminalRead "ok")]

set_option maxRecDepth 10000

lemma c5Job_resend_ratio : c5Job.report_resend.get_resend_ratio = 1/20 := by
  simp [c5Job, PrintInfo.new, PrintInfo.report_resend, PrintInfo.get_resend_ratio,
    List.length_replicate]
  norm_num

lemma resend_panic (pi : PrintInfo) (k : Nat) (q : List Message) (r : Bool)
    (hratio : ¬ pi.report_resend.get_resend_ratio > 1/10)
    (hk : k > pi.gcode.length + 1) :
    handle_ok_response (BridgeAction.Resend k) BridgeState.PRINTING (Option.some pi) q r =
      Option.none := by
  have hg : pi.report_resend.gcode = pi.gcode := rfl
  have hset : pi.report_resend.set_line_number k = Option.none := by
    simp [PrintInfo.set_line_number, hg]
    omega
  simp [handle_ok_response, hset, if_neg hratio]
  simpa using not_lt.mp hratio

lemma resend_missing (pi : PrintInfo) (k : Nat) (q : List Message) (r : Bool)
    (hratio : ¬ pi.report_resend.get_resend_ratio > 1/10)
    (hnone : pi.gcode.get? k = Option.none) (hk : k ≤ pi.gcode.length + 1) :
    handle_ok_response (BridgeAction.Resend k) BridgeState.PRINTING (Option.some pi) q r =
      Option.some { print_info := Option.some { pi.report_resend with line_number := k },
                    queue := q, ready := r,
                    events := [(Dest.distributor,
                      EvtBody.bridgeStateUpdate BridgeState.ERRORED
                        (StateDescription.error "Cannot resend line"))] } := by
  have hg : pi.report_resend.gcode = pi.gcode := rfl
  have hratio2 : ¬ (10 : Rat)⁻¹ < pi.report_resend.get_resend_ratio := by
    rw [inv_eq_one_div]; exact hratio
  have hnone2 : pi.gcode[k]? = Option.none := by simpa using hnone
  have hset : pi.report_resend.set_line_number k =
      Option.some { pi.report_resend with line_number := k } := by
    simp [PrintInfo.set_line_number, hg]
    omega
  simp [handle_ok_response, hset, if_neg hratio, if_neg hratio2,
    PrintInfo.get_line_by_index, hg, hnone2]

lemma resend_found (pi : PrintInfo) (k : Nat) (txt : String) (q : List Message) (r : Bool)
    (hratio : ¬ pi.report_resend.get_resend_ratio > 1/10)
    (hsome : pi.gcode.get? k = Option.some txt) :
    handle_ok_response (BridgeAction.Resend k) BridgeState.PRINTING (Option.some pi) q r =
      Option.some { print_info := Option.some { pi.report_resend with line_number := k },
                    queue := q, ready := r,
                    events := [(Dest.bridgeSender,
                      EvtBody.terminalSend (add_checksum k txt))] } := by
  have hg : pi.report_resend.gcode = pi.gcode := rfl
  have hk : k < pi.gcode.length := by
    by_contra hcon
    rw [List.get?_eq_none.mpr (le_of_not_lt hcon)] at hsome
    exact Option.noConfusion hsome
  have hratio2 : ¬ (10 : Rat)⁻¹ < pi.report_resend.get_resend_ratio := by
    rw [inv_eq_one_div]; exact hratio
  have hsome2 : pi.gcode[k]? = Option.some txt := by simpa using hsome
  have hset : pi.report_resend.set_line_number k =
      Option.some { pi.report_resend with line_number := k } := by
    simp [PrintInfo.set_line_number, hg]
    omega
  simp [handle_ok_response, hset, if_neg hratio, if_neg hratio2,
    PrintInfo.get_line_by_index, hg, hsome2]

lemma add_bytes_sent_line_number (pi : PrintInfo) (b : Nat) :
    (pi.add_bytes_sent b).line_number = pi.line_number := by
  unfold PrintInfo.add_bytes_sent
  split <;> rfl

lemma continuePrint_some (pi1 : PrintInfo) (l : Line) (q : List Message) (r : Bool) :
    continuePrint pi1 (Option.some l) q r =
      { print_info := Option.some (pi1.add_bytes_sent (byteLen l.content)), queue := q,
        ready := r, events := (continuePrint pi1 (Option.some l) q r).events } ∧
    bridgeSends (continuePrint pi1 (Option.some l) q r).events =
      [add_checksum l.line_number l.content] ∧
    terminalReads (continuePrint pi1 (Option.some l) q r).events = [] ∧
    tempUpdates (continuePrint pi1 (Option.some l) q r).events = [] := by
  unfold continuePrint
  refine ⟨rfl, ?_, ?_, ?_⟩ <;>
    simp [bridgeSends, terminalReads, tempUpdates]

lemma dropWhile_suffix_last (p : Char → Bool) (c : Char) (hc : p c = false) :
    ∀ l : List Char, ∃ x w, l = x ++ w ∧ List.dropWhile p (l ++ [c]) = w ++ [c]
  | [] => ⟨[], [], rfl, by simp [List.dropWhile, hc]⟩
  | a :: l => by
    by_cases hpa : p a
    · obtain ⟨x, w, hxw, hdw⟩ := dropWhile_suffix_last p c hc l
      exact ⟨a :: x, w, by simp [hxw], by simpa [List.dropWhile, hpa] using hdw⟩
    · exact ⟨[], a :: l, rfl, by simp [List.dropWhile, hpa]⟩

lemma strTrim_data (s : String) (c : Char) (t : List Char) (hd : s.data = c :: t)
    (hc : c.isWhitespace = false) :
    ∃ u, (strTrim s).data = c :: u ∧ List.IsPrefix u t := by
  obtain ⟨x, w, hxw, hdw⟩ := dropWhile_suffix_last Char.isWhitespace c hc t.reverse
  refine ⟨w.reverse, ?_, ?_⟩
  · rw [strTrim, hd]
    simp only [List.dropWhile_cons, hc, if_neg, Bool.false_eq_true, ite_false,
      List.reverse_cons]
    rw [hdw]
    simp
  · refine ⟨x.reverse, ?_⟩
    have ht : t = w.reverse ++ x.reverse := by
      have hrev := congrArg List.reverse hxw
      simpa using hrev
    exact ht.symm

lemma error_line_shape (input : String)
    (herr : strStarts (strLower input) "error" = true) :
    ∃ c0 c1 rest, input.data = c0 :: c1 :: rest ∧ c0.toLower = 'e' ∧ c1.toLower = 'r' := by
  unfold strStarts strLower at herr
  match hd : input.data with
  | [] => rw [hd] at herr; simp [List.isPrefixOf] at herr
  | [c0] => rw [hd] at herr; simp [List.isPrefixOf] at herr
  | c0 :: c1 :: rest =>
    rw [hd] at herr
    simp [List.isPrefixOf] at herr
    exact ⟨c0, c1, rest, rfl, herr.1.symm, herr.2.1.symm⟩

lemma toLower_not_ws (c : Char) (h : c.toLower = 'e') : c.isWhitespace = false := by
  by_contra hcon
  simp only [Bool.not_eq_false] at hcon
  have hcases : ((c = ' ' ∨ c = '\t') ∨ c = '\r') ∨ c = '\n' := by
    simpa [Char.isWhitespace] using hcon
  rcases hcases with ((h1 | h1) | h1) | h1 <;> subst h1 <;> exact absurd h (by decide)

lemma error_not_ok_start (input : String)
    (herr : strStarts (strLower input) "error" = true) :
    strStarts (strTrim input) "ok" = false := by
  obtain ⟨c0, c1, rest, hd, h0, h1⟩ := error_line_shape input herr
  obtain ⟨u, hu, hupre⟩ := strTrim_data input c0 (c1 :: rest) hd (toLower_not_ws c0 h0)
  have hne : c0 ≠ 'o' := by
    intro hc
    rw [hc] at h0
    exact absurd h0 (by decide)
  unfold strStarts
  rw [hu]
  simp [List.isPrefixOf]
  intro hc
  exact absurd hc.symm hne

lemma error_not_busy (input : String)
    (herr : strStarts (strLower input) "error" = true) :
    strStarts (strLower (strTrim input)) "echo:busy: processing" = false := by
  obtain ⟨c0, c1, rest, hd, h0, h1⟩ := error_line_shape input herr
  obtain ⟨u, hu, hupre⟩ := strTrim_data input c0 (c1 :: rest) hd (toLower_not_ws c0 h0)
  unfold strStarts strLower
  rw [hu]
  cases u with
  | nil => simp [List.isPrefixOf]
  | cons u0 u2 =>
    have hu0 : u0 = c1 := by
      obtain ⟨w, hw⟩ := hupre
      have hw2 := hw
      rw [List.cons_append] at hw2
      exact (List.cons.inj hw2).1
    have hc1 : ('c' == u0.toLower) = false := by
      rw [hu0, h1]
      decide
    simp [List.isPrefixOf, hc1]

lemma mem_fUpStep (x : String) (acc : List String) (cap : String) :
    x ∈ fUpStep acc cap ↔ x ∈ acc ∨
      (x = "M155 S2" ∧ strContainsSub cap "Cap:AUTOREPORT_TEMP:1" = true) ∨
      (x = "M501" ∧ strContainsSub cap "Cap:EEPROM:1" = true) := by
  unfold fUpStep
  split <;> split <;> simp_all [List.mem_append] <;> tauto

lemma mem_foldl_fUpStep (x : String) :
    ∀ (batch acc : List String),
      (x ∈ batch.foldl fUpStep acc ↔ x ∈ acc ∨
        ∃ l ∈ batch, ((x = "M155 S2" ∧ strContainsSub l "Cap:AUTOREPORT_TEMP:1" = true) ∨
                      (x = "M501" ∧ strContainsSub l "Cap:EEPROM:1" = true)))
  | [], acc => by simp
  | b :: batch, acc => by
    rw [List.foldl_cons, mem_foldl_fUpStep x batch (fUpStep acc b), mem_fUpStep]
    simp only [List.mem_cons]
    constructor
    · rintro (h | ⟨l, hl, hc⟩)
      · rcases h with h | h
        · exact Or.inl h
        · exact Or.inr ⟨b, Or.inl rfl, h⟩
      · exact Or.inr ⟨l, Or.inr hl, hc⟩
    · rintro (h | ⟨l, hl, hc⟩)
      · exact Or.inl (Or.inl h)
      · rcases hl with rfl | hl
        · exact Or.inl (Or.inr hc)
        · exact Or.inr ⟨l, hl, hc⟩

lemma dispatch_nonempty (s : ReaderState) (line : String) (cs : List String) (cmd : String)
    (hcap : s.has_collected_capabilities = true)
    (herr : strStarts (strLower line) "error" = false)
    (hcmds : s.commands_left_to_send = cs ++ [cmd]) :
    readerStepConnecting s line = ({ s with commands_left_to_send := cs },
      [(Dest.distributor, EvtBody.terminalSend cmd)]) := by
  cases cs with
  | nil =>
    simp at hcmds
    simp [readerStepConnecting, hcap, herr, hcmds]
  | cons a as =>
    rw [List.cons_append] at hcmds
    have h1 : ∀ h, (a :: (as ++ [cmd])).getLast h = cmd := by
      intro h
      exact List.getLast_append_singleton (a :: as)
    have h2 : (a :: (as ++ [cmd])).dropLast = a :: as := by
      rw [← List.cons_append, List.dropLast_concat]
    simp [readerStepConnecting, hcap, herr, hcmds, h1, h2]

lemma dispatch_empty (s : ReaderState) (line : String)
    (hcap : s.has_collected_capabilities = true)
    (herr : strStarts (strLower line) "error" = false)
    (hcmds : s.commands_left_to_send = []) :
    readerStepConnecting s line = ({ s with collected_responses := [] },
      [(Dest.distributor, EvtBody.bridgeStateUpdate BridgeState.CONNECTED
          (StateDescription.capability s.collected_responses))]) := by
  simp [readerStepConnecting, hcap, herr, hcmds]

lemma handle_ok_no_reads (a : BridgeAction) (st : BridgeState) (piOpt : Option PrintInfo)
    (q : List Message) (r : Bool) (res : HOkRes)
    (h : handle_ok_response a st piOpt q r = Option.some res) :
    terminalReads res.events = [] ∧ tempUpdates res.events = [] := by
  unfold handle_ok_response continuePrint at h
  dsimp only [] at h
  repeat' split at h
  all_goals first
    | exact Option.noConfusion h
    | (rw [← Option.some.inj h]; simp [terminalReads, tempUpdates])

lemma readerStepOther_char (s : ReaderState) (l : String) (s1 : ReaderState) (evs : List Evt)
    (h : readerStepOther s l = Option.some (s1, evs)) :
    s1.phase = s.phase ∧
    terminalReads evs = (if tempIsMatch l then [] else [l]) ∧
    tempUpdates evs = (if tempIsMatch l then [l] else []) := by
  unfold readerStepOther at h
  rcases Bool.eq_false_or_eq_true (tempIsMatch l) with ht | ht <;>
    rcases Bool.eq_false_or_eq_true (strStarts l "ok") with hok | hok
  · simp only [ht, hok, eq_self_iff_true, if_true, ite_true] at h
    rcases hr : handle_ok_response (parse_responses s.collected_responses)
        s.phase s.print_info s.queue s.ready with _ | r
    · rw [hr] at h
      exact Option.noConfusion h
    · rw [hr] at h
      obtain ⟨h1, h2⟩ := Prod.mk.inj (Option.some.inj h)
      obtain ⟨hr1, hr2⟩ := handle_ok_no_reads _ _ _ _ _ _ hr
      rw [← h1, ← h2]
      simp [terminalReads, tempUpdates, ht, List.filterMap_append] at hr1 hr2 ⊢
      exact ⟨hr1, hr2⟩
  · simp only [ht, hok, eq_self_iff_true, if_true, ite_true, Bool.false_eq_true,
      if_false, ite_false] at h
    obtain ⟨h1, h2⟩ := Prod.mk.inj (Option.some.inj h)
    rw [← h1, ← h2]
    simp [terminalReads, tempUpdates, ht]
  · simp only [ht, hok, eq_self_iff_true, if_true, ite_true, Bool.false_eq_true,
      if_false, ite_false] at h
    rcases hr : handle_ok_response
        (parse_responses (s.collected_responses ++ [l]))
        s.phase s.print_info s.queue s.ready with _ | r
    · rw [hr] at h
      exact Option.noConfusion h
    · rw [hr] at h
      obtain ⟨h1, h2⟩ := Prod.mk.inj (Option.some.inj h)
      obtain ⟨hr1, hr2⟩ := handle_ok_no_reads _ _ _ _ _ _ hr
      rw [← h1, ← h2]
      simp [terminalReads, tempUpdates, ht, List.filterMap_append] at hr1 hr2 ⊢
      exact ⟨hr1, hr2⟩
  · simp only [ht, hok, Bool.false_eq_true, if_false, ite_false] at h
    obtain ⟨h1, h2⟩ := Prod.mk.inj (Option.some.inj h)
    rw [← h1, ← h2]
    simp [terminalReads, tempUpdates, ht]

/-- C1: evaluation of the code at the claim's own scenario (20-line job, first
resend).  The resend is recorded first (`resend_amount` becomes 1), but
`get_resend_ratio` returns a percentage, `(1/20)*100 = 5`, which
`handle_ok_response` compares against the literal `0.1`; the Bridge therefore
transitions to `Errored{"Resend ratio went above 10%..."}` at a 5% ratio,
although the claim (and the error message itself) says a 5% ratio continues
the print. -/
theorem c1_resend_ratio_threshold_bug :
    c1Job.report_resend.get_resend_ratio = 5 ∧ ((5 : Rat) > 1/10) ∧
    handle_ok_response (BridgeAction.Resend 5) BridgeState.PRINTING
      (Option.some c1Job) [] true =
      Option.some { print_info := Option.some c1Job.report_resend, queue := [], ready := true,
                    events := [(Dest.distributor,
                      EvtBody.bridgeStateUpdate BridgeState.ERRORED
                        (StateDescription.error
                          "Resend ratio went above 10%.\n Consider checking your connection"))] } := by
  have h : c1Job.report_resend.get_resend_ratio = 5 := by
    simp [c1Job, PrintInfo.new, PrintInfo.report_resend, PrintInfo.get_resend_ratio,
      List.length_replicate]
    norm_num
  refine ⟨h, by norm_num, ?_⟩
  simp [handle_ok_response, h]
  norm_num

/-- C2: evaluation of the inbox task at the claim's scenario.  In phase
`Connected` with the ACK gate open, two consecutive `Send`s with no `ok` in
between are BOTH written immediately and the gate is still open afterwards:
the write path executes `*ready = true` instead of closing the gate, so the
"at most one command in flight" discipline never engages. -/
theorem c2_ack_gate_not_closed_on_write :
    listenerRun c2Start [InEvent.terminalSend "M104 S200" 1, InEvent.terminalSend "M140 S60" 2] =
      ({ c2Start with writes := ["M104 S200\n", "M140 S60\n"] },
       [(Dest.distributor, EvtBody.wsTerminalSend "M104 S200\n"),
        (Dest.distributor, EvtBody.wsTerminalSend "M140 S60\n")], []) := by
  decide

/-- C3: the `Continue` decision in `Printing`.  (a) `Continue (some n)` with line
`n+1` present sets the cursor to `n` and submits the wire form of line `n+1` as
the only `Send` on the inbox; (b) `Continue none` at cursor 0 with line 1
present sets the cursor to 1 and submits line 1; (c) `Continue none` at a
nonzero cursor changes nothing and emits nothing; (d) when line `n+1` is absent
(and `n` is within the job, as every acknowledged line number is) a `PrintEnd`
is published on the distributor, which `main.rs` routes to the Bridge inbox,
instead of a `Send`. -/
theorem c3_continue_decision :
    (∀ (pi : PrintInfo) (n : Nat) (txt : String) (q : List Message) (r : Bool),
      pi.gcode.get? (n + 1) = Option.some txt →
      ∃ res, handle_ok_response (BridgeAction.Continue (Option.some n)) BridgeState.PRINTING
          (Option.some pi) q r = Option.some res ∧
        res.print_info.map PrintInfo.line_number = Option.some n ∧
        bridgeSends res.events = [add_checksum (n + 1) txt]) ∧
    (∀ (pi : PrintInfo) (txt : String) (q : List Message) (r : Bool),
      pi.line_number = 0 → pi.gcode.get? 1 = Option.some txt →
      ∃ res, handle_ok_response (BridgeAction.Continue Option.none) BridgeState.PRINTING
          (Option.some pi) q r = Option.some res ∧
        res.print_info.map PrintInfo.line_number = Option.some 1 ∧
        bridgeSends res.events = [add_checksum 1 txt]) ∧
    (∀ (pi : PrintInfo) (q : List Message) (r : Bool),
      pi.line_number ≠ 0 →
      handle_ok_response (BridgeAction.Continue Option.none) BridgeState.PRINTING
          (Option.some pi) q r =
        Option.some { print_info := Option.some pi, queue := q, ready := r, events := [] }) ∧
    (∀ (pi : PrintInfo) (n : Nat) (q : List Message) (r : Bool),
      pi.gcode.get? (n + 1) = Option.none → n ≤ pi.gcode.length →
      handle_ok_response (BridgeAction.Continue (Option.some n)) BridgeState.PRINTING
          (Option.some pi) q r =
        Option.some { print_info := Option.some { pi with line_number := n }, queue := q,
                      ready := r, events := [(Dest.distributor, EvtBody.printEnd)] }) := by
  refine ⟨?_, ?_, ?_, ?_⟩
  · intro pi n txt q r hsome
    have hn : n + 1 < pi.gcode.length := by
      by_contra hcon
      rw [List.get?_eq_none.mpr (le_of_not_lt hcon)] at hsome
      exact Option.noConfusion hsome
    have hset : pi.set_line_number n = Option.some { pi with line_number := n } := by
      simp [PrintInfo.set_line_number]
      omega
    have hsome2 : pi.gcode[n + 1]? = Option.some txt := by simpa using hsome
    refine ⟨continuePrint { pi with line_number := n }
      (Option.some { content := txt, line_number := n + 1 }) q r, ?_, ?_, ?_⟩
    · simp [handle_ok_response, hset, PrintInfo.get_line_by_index, hsome2]
    · obtain ⟨heq, hb, _, _⟩ := continuePrint_some { pi with line_number := n }
        { content := txt, line_number := n + 1 } q r
      rw [heq]
      simp [add_bytes_sent_line_number]
    · exact (continuePrint_some _ _ q r).2.1
  · intro pi txt q r h0 hsome
    have hset : pi.set_line_number 1 = Option.some { pi with line_number := 1 } := by
      simp [PrintInfo.set_line_number]
    have hsome2 : pi.gcode[1]? = Option.some txt := by simpa using hsome
    refine ⟨continuePrint { pi with line_number := 1 }
      (Option.some { content := txt, line_number := 1 }) q r, ?_, ?_, ?_⟩
    · simp [handle_ok_response, h0, hset, PrintInfo.get_line_by_index, hsome2]
    · obtain ⟨heq, hb, _, _⟩ := continuePrint_some { pi with line_number := 1 }
        { content := txt, line_number := 1 } q r
      rw [heq]
      simp [add_bytes_sent_line_number]
    · exact (continuePrint_some _ _ q r).2.1
  · intro pi q r h0
    simp [handle_ok_response, h0]
  · intro pi n q r hnone hn
    have hset : pi.set_line_number n = Option.some { pi with line_number := n } := by
      simp [PrintInfo.set_line_number]
      omega
    have hnone2 : pi.gcode[n + 1]? = Option.none := by simpa using hnone
    simp [handle_ok_response, hset, PrintInfo.get_line_by_index, hnone2, continuePrint]

/-- C3 witness: the spec's scenario 3.  Cursor 5 on a 100-line job, `ok N6`
arrives: cursor becomes 6 and the wire form of line 7 (`N7G1X7*96`) is
submitted; a subsequent bare `ok` at cursor 6 changes nothing. -/
theorem c3_continue_decision_witness :
    (∃ res, handle_ok_response (BridgeAction.Continue (Option.some 6)) BridgeState.PRINTING
        (Option.some c3Job) [] true = Option.some res ∧
      res.print_info.map PrintInfo.line_number = Option.some 6 ∧
      bridgeSends res.events = [add_checksum 7 "G1 X7"]) ∧
    handle_ok_response (BridgeAction.Continue Option.none) BridgeState.PRINTING
        (Option.some { c3Job with line_number := 6 }) [] true =
      Option.some { print_info := Option.some { c3Job with line_number := 6 }, queue := [],
                    ready := true, events := [] } :=
  ⟨c3_continue_decision.1 c3Job 6 "G1 X7" [] true (by decide),
   c3_continue_decision.2.2.1 { c3Job with line_number := 6 } [] true (by decide)⟩

/-- C4 counterexample: the claim's concrete value is wrong.  `add_checksum 1 "G28"`
does not return `N1G28*22`: the XOR of the bytes of `N1G28` is 50, not 22. -/
theorem c4_checksum_claimed_values_false : add_checksum 1 "G28" ≠ "N1G28*22" := by
  decide

/-- C4 (amended): `add_checksum` strips spaces, prefixes `N<index>`, XORs the
bytes of the prefixed form and appends the checksum in decimal, yielding
`N1G28*50` and `N10G1X10Y20*59` for the claim's two inputs (the wire text agrees
with the claim; the two checksum values in the claim are miscomputed); stripping
makes the result invariant under spaces in the text. -/
theorem c4_checksum_values :
    add_checksum 1 "G28" = "N1G28*50" ∧ add_checksum 10 "G1 X10 Y20" = "N10G1X10Y20*59" ∧
    add_checksum 10 "G1 X10 Y20" = add_checksum 10 "G1X10Y20" := by
  decide

/-- C5 counterexample: a `Resend k` with `k` two past the end of a 2000-line job
(large enough that the first resend passes the ratio gate) does not produce the
`Errored{"Cannot resend line"}` transition: `PrintInfo::set_line_number` panics
(`Cannot set line number out of bounds`), modelled as `Option.none`. -/
theorem c5_resend_out_of_bounds_panics :
    handle_ok_response (BridgeAction.Resend 2002) BridgeState.PRINTING
      (Option.some c5Job) [] true = Option.none := by
  have hnotgt : ¬ c5Job.report_resend.get_resend_ratio > 1/10 := by
    rw [c5Job_resend_ratio]; norm_num
  have hk : (2002 : Nat) > c5Job.gcode.length + 1 := by
    simp [c5Job, PrintInfo.new, List.length_replicate]
  exact resend_panic c5Job 2002 [] true hnotgt hk

/-- C5 (amended): in `Printing`, for a `Resend k` that passes the resend-ratio
gate: if line `k` exists, the cursor is set to `k` and the wire form of line `k`
is submitted as the next `Send`; if line `k` is absent and `k ≤ size + 1`, the
Bridge transitions to `Errored{"Cannot resend line"}` (with the cursor also set
to `k`, as the source sets it before checking); but for `k > size + 1` the code
panics in `set_line_number` instead of transitioning. -/
theorem c5_resend_decision (pi : PrintInfo) (k : Nat) (q : List Message) (r : Bool)
    (hratio : ¬ pi.report_resend.get_resend_ratio > 1/10) :
    (pi.gcode.get? k = Option.none → k ≤ pi.gcode.length + 1 →
      handle_ok_response (BridgeAction.Resend k) BridgeState.PRINTING (Option.some pi) q r =
        Option.some { print_info := Option.some { pi.report_resend with line_number := k },
                      queue := q, ready := r,
                      events := [(Dest.distributor,
                        EvtBody.bridgeStateUpdate BridgeState.ERRORED
                          (StateDescription.error "Cannot resend line"))] }) ∧
    (∀ txt, pi.gcode.get? k = Option.some txt →
      handle_ok_response (BridgeAction.Resend k) BridgeState.PRINTING (Option.some pi) q r =
        Option.some { print_info := Option.some { pi.report_resend with line_number := k },
                      queue := q, ready := r,
                      events := [(Dest.bridgeSender,
                        EvtBody.terminalSend (add_checksum k txt))] }) ∧
    (k > pi.gcode.length + 1 →
      handle_ok_response (BridgeAction.Resend k) BridgeState.PRINTING (Option.some pi) q r =
        Option.none) :=
  ⟨fun hnone hk => resend_missing pi k q r hratio hnone hk,
   fun txt hsome => resend_found pi k txt q r hratio hsome,
   fun hk => resend_panic pi k q r hratio hk⟩

/-- C5 witness: on the 2000-line job, `Resend 2000` (just past the last index,
within the panic guard) yields the `Errored{"Cannot resend line"}` transition. -/
theorem c5_resend_decision_witness :
    (¬ c5Job.report_resend.get_resend_ratio > 1/10) ∧
    handle_ok_response (BridgeAction.Resend 2000) BridgeState.PRINTING
      (Option.some c5Job) [] true =
      Option.some { print_info := Option.some { c5Job.report_resend with line_number := 2000 },
                    queue := [], ready := true,
                    events := [(Dest.distributor,
                      EvtBody.bridgeStateUpdate BridgeState.ERRORED
                        (StateDescription.error "Cannot resend line"))] } := by
  have hnotgt : ¬ c5Job.report_resend.get_resend_ratio > 1/10 := by
    rw [c5Job_resend_ratio]; norm_num
  have hg : c5Job.gcode = List.replicate 2000 "G1" := rfl
  refine ⟨hnotgt, (c5_resend_decision c5Job 2000 [] true hnotgt).1 ?_ ?_⟩
  · rw [hg]
    apply List.get?_eq_none.mpr
    simp [List.length_replicate]
  · rw [hg]
    simp [List.length_replicate]

/-- C6 counterexample: a line that is exactly the claimed suppressed prefix
`Error:Line Number is not Last Line Number+1` (no trailing comma) is NOT
suppressed by the code: `parse_line` matches the suppression only on the prefix
with a trailing comma, so this line transitions to `Errored` with itself as the
message, while the claim says it produces no transition. -/
theorem c6_prefix_without_comma_not_suppressed :
    parse_line "Error:Line Number is not Last Line Number+1" BridgeState.CONNECTED
      Option.none true [] =
      Option.some { print_info := Option.none, ready := true, queue := [],
                    events := [(Dest.distributor,
                      EvtBody.bridgeStateUpdate BridgeState.ERRORED
                        (StateDescription.error
                          "Error:Line Number is not Last Line Number+1"))] } := by
  decide

/-- C6 (amended): every received line that begins case-insensitively with
`error` — except lines matching the temperature pattern, and, during `Printing`,
lines matching the resend pattern, which earlier branches consume — transitions
to `Errored` with that line as the message, unless the line starts with the
exact prefix `"Error:Line Number is not Last Line Number+1,"` (with trailing
comma), in which case it is suppressed: no state transition and no event. -/
theorem c6_error_line_handling (input : String) (state : BridgeState)
    (piOpt : Option PrintInfo) (r : Bool) (q : List Message)
    (htemp : tempIsMatch input = false)
    (hres : state = BridgeState.PRINTING → resendIsMatch input = false)
    (herr : strStarts (strLower input) "error" = true) :
    parse_line input state piOpt r q =
      Option.some { print_info := piOpt, ready := r, queue := q,
                    events :=
                      if strStarts input "Error:Line Number is not Last Line Number+1,"
                      then []
                      else [(Dest.distributor,
                        EvtBody.bridgeStateUpdate BridgeState.ERRORED
                          (StateDescription.error input))] } := by
  have hok := error_not_ok_start input herr
  have hbusy := error_not_busy input herr
  have hres2 : ¬ (state = BridgeState.PRINTING ∧ resendIsMatch input = true) := by
    rintro ⟨hs, hr⟩
    rw [hres hs] at hr
    exact Bool.noConfusion hr
  unfold parse_line
  rw [hok]
  simp only [Bool.false_eq_true, ite_false]
  simp [htemp, hres2, hok, hbusy, herr]
  split <;> rfl

/-- C6 witness: a full line-number-mismatch error line (with the comma) in phase
`Connected` is suppressed: no event is published and no state changes. -/
theorem c6_error_line_handling_witness :
    tempIsMatch "Error:Line Number is not Last Line Number+1, Last Line: 4" = false ∧
    parse_line "Error:Line Number is not Last Line Number+1, Last Line: 4"
      BridgeState.CONNECTED Option.none true [] =
      Option.some { print_info := Option.none, ready := true, queue := [], events := [] } := by
  refine ⟨by decide, ?_⟩
  have h := c6_error_line_handling "Error:Line Number is not Last Line Number+1, Last Line: 4"
    BridgeState.CONNECTED Option.none true [] (by decide) (by decide) (by decide)
  rw [h]
  decide

/-- C7 counterexample: a `StartPrint` received while `Connecting` is refused
with no event and no state change, but the `return ()` terminates the inbox
task: the following `Send` is never processed (it stays in the unprocessed
remainder and nothing is written), while the claim says the Bridge continues
to process subsequent inbox events. -/
theorem c7_wrong_phase_halts_inbox_task :
    listenerRun c7Start [InEvent.printStart (PrintInfo.new "a.gcode" 10 ["G1"] 0),
                         InEvent.terminalSend "M105" 7] =
      (c7Start, [], [InEvent.terminalSend "M105" 7]) := by
  decide

/-- C7 (amended): `StartPrint` while the phase is not `Connected`, and
`EndPrint` while the phase is not `Printing` (each case under its own phase
hypothesis only, so the `EndPrint` case covers phase `Connected` in
particular), is refused silently — the state, the print job and the queue are
untouched and no event is published — but the handler returns from the inbox
task, so the remaining inbox events are left unprocessed rather than handled. -/
theorem c7_wrong_phase_refused_silently (s : ListenerState) (info : PrintInfo)
    (rest : List InEvent) :
    (s.phase ≠ BridgeState.CONNECTED →
      listenerStep s (InEvent.printStart info) = StepOut.halt s [] ∧
      listenerRun s (InEvent.printStart info :: rest) = (s, [], rest)) ∧
    (s.phase ≠ BridgeState.PRINTING →
      listenerStep s InEvent.printEnd = StepOut.halt s [] ∧
      listenerRun s (InEvent.printEnd :: rest) = (s, [], rest)) := by
  constructor
  · intro hphase
    have h1 : listenerStep s (InEvent.printStart info) = StepOut.halt s [] := by
      simp [listenerStep, hphase]
    exact ⟨h1, by simp [listenerRun, h1]⟩
  · intro hphase
    have h3 : listenerStep s InEvent.printEnd = StepOut.halt s [] := by
      simp [listenerStep, hphase]
    exact ⟨h3, by simp [listenerRun, h3]⟩

/-- C7 witness: a wrong-phase `StartPrint` in `Connecting`, and a stray
`EndPrint` in the idle `Connected` phase; in both runs the pending `Send`
after the refused command is left unprocessed. -/
theorem c7_wrong_phase_refused_silently_witness :
    c7Start.phase ≠ BridgeState.CONNECTED ∧
    listenerRun c7Start [InEvent.printStart (PrintInfo.new "a.gcode" 10 ["G1"] 0),
                         InEvent.terminalSend "M105" 7] =
      (c7Start, [], [InEvent.terminalSend "M105" 7]) ∧
    c7Connected.phase ≠ BridgeState.PRINTING ∧
    listenerRun c7Connected [InEvent.printEnd, InEvent.terminalSend "M105" 7] =
      (c7Connected, [], [InEvent.terminalSend "M105" 7]) :=
  ⟨by decide,
   ((c7_wrong_phase_refused_silently c7Start (PrintInfo.new "a.gcode" 10 ["G1"] 0)
     [InEvent.terminalSend "M105" 7]).1 (by decide)).2,
   by decide,
   ((c7_wrong_phase_refused_silently c7Connected (PrintInfo.new "a.gcode" 10 ["G1"] 0)
     [InEvent.terminalSend "M105" 7]).2 (by decide)).2⟩

/-- C8: capability negotiation.  (1) The spec's probe scenario with a Marlin
batch (`FIRMWARE_NAME:Marlin 2.0`, both capability lines, then the closing `ok`
and three more `ok`s): after the closing `ok` the Bridge sends `G90`, each
subsequent `ok` dispatches exactly one queued follow-up (`M501`, then `M155 S2`),
and only then does the phase become `Connected` with the collected batch (the
batch as collected includes the closing `ok` line) in the snapshot — both
optional commands are written before `Connected`.  (2) `M155 S2` is queued
exactly when some batch line contains `Cap:AUTOREPORT_TEMP:1`, and `M501`
exactly when one contains `Cap:EEPROM:1`.  (3) In the dispatch sub-state a line
dispatches exactly one queued follow-up when any remain, and the `Connected`
transition with the collected batch happens exactly when none remain. -/
theorem c8_capability_negotiation :
    (readerRun c8Start ["FIRMWARE_NAME:Marlin 2.0", "Cap:AUTOREPORT_TEMP:1", "Cap:EEPROM:1",
        "ok", "ok", "ok", "ok"] =
      Option.some ({ c8Start with has_collected_capabilities := true },
        [(Dest.distributor, EvtBody.terminalSend "G90"),
         (Dest.distributor, EvtBody.terminalSend "M501"),
         (Dest.distributor, EvtBody.terminalSend "M155 S2"),
         (Dest.distributor, EvtBody.bridgeStateUpdate BridgeState.CONNECTED
           (StateDescription.capability
             ["FIRMWARE_NAME:Marlin 2.0", "Cap:AUTOREPORT_TEMP:1", "Cap:EEPROM:1", "ok"]))])) ∧
    (∀ batch : List String,
      ("M155 S2" ∈ queuedFollowUps batch ↔
        ∃ l ∈ batch, strContainsSub l "Cap:AUTOREPORT_TEMP:1" = true) ∧
      ("M501" ∈ queuedFollowUps batch ↔
        ∃ l ∈ batch, strContainsSub l "Cap:EEPROM:1" = true)) ∧
    (∀ (s : ReaderState) (line : String) (cs : List String) (cmd : String),
      s.has_collected_capabilities = true → s.phase = BridgeState.CONNECTING →
      strStarts (strLower line) "error" = false →
      (s.commands_left_to_send = cs ++ [cmd] →
        readerStep s line = Option.some ({ s with commands_left_to_send := cs },
          [(Dest.distributor, EvtBody.terminalSend cmd)])) ∧
      (s.commands_left_to_send = [] →
        readerStep s line = Option.some ({ s with collected_responses := [] },
          [(Dest.distributor, EvtBody.bridgeStateUpdate BridgeState.CONNECTED
              (StateDescription.capability s.collected_responses))]))) := by
  have hne : ("M155 S2" : String) ≠ "M501" := by decide
  refine ⟨by decide, ?_, ?_⟩
  · intro batch
    constructor
    · rw [queuedFollowUps, mem_foldl_fUpStep]
      simp [hne]
    · rw [queuedFollowUps, mem_foldl_fUpStep]
      simp [hne.symm]
  · intro s line cs cmd hcap hphase herr
    constructor
    · intro hcmds
      rw [readerStep, if_pos hphase, dispatch_nonempty s line cs cmd hcap herr hcmds]
    · intro hcmds
      rw [readerStep, if_pos hphase, dispatch_empty s line hcap herr hcmds]

/-- C8 witness: with one follow-up (`M501`) still queued, an `ok` dispatches it
and empties the queue; and `M155 S2` is queued for a batch containing the
autoreport capability line. -/
theorem c8_capability_negotiation_witness :
    (readerStep c8WitState "ok" =
      Option.some ({ c8WitState with commands_left_to_send := [] },
        [(Dest.distributor, EvtBody.terminalSend "M501")])) ∧
    ("M155 S2" ∈ queuedFollowUps ["Cap:AUTOREPORT_TEMP:1"]) := by
  constructor
  · exact ((c8_capability_negotiation.2.2 c8WitState "ok" [] "M501" rfl rfl (by decide)).1 rfl)
  · exact ((c8_capability_negotiation.2.1 ["Cap:AUTOREPORT_TEMP:1"]).1).mpr
      ⟨"Cap:AUTOREPORT_TEMP:1", by decide, by decide⟩

/-- C9 counterexample: with the three rows present, `startOnBoot` true and a
non-zero baud, but the stored device path equal to the EMPTY string,
`connect_boot` still submits `ConnectionCreate{"", 115200}` — the code never
checks that the device path is non-empty, contradicting the claim that no
`CreateBridge` is submitted for an empty path. -/
theorem c9_empty_device_path_still_connects :
    SettingRow.from_row "B_startOnBoot" "1" 1 = Option.some c9RowBoot ∧
    SettingRow.from_row "S_devicePath" "" 0 = Option.some c9RowPath ∧
    SettingRow.from_row "N_deviceBaud" "115200" 2 = Option.some c9RowBaud ∧
    connect_boot [c9RowBoot, c9RowPath, c9RowBaud] =
      Option.some (Option.some ("", 115200)) := by
  decide

/-- C9 (amended): at boot, `connect_boot` submits `ConnectionCreate` if and only
if the query returned exactly three rows, the `startOnBoot` row parsed to true,
and the stored baud truncated to `u32` is non-zero — the device-path row need
only be present; its value, including the empty string, is passed through
unchecked. -/
theorem c9_connect_boot_condition (bootVal pathVal baudVal : String)
    (bootRow pathRow baudRow : SettingRow)
    (hB : SettingRow.from_row "B_startOnBoot" bootVal 1 = Option.some bootRow)
    (hS : SettingRow.from_row "S_devicePath" pathVal 0 = Option.some pathRow)
    (hN : SettingRow.from_row "N_deviceBaud" baudVal 2 = Option.some baudRow) :
    (connect_boot [bootRow, pathRow, baudRow] =
      Option.some (if bootRow.bool.getD false ∧ (baudRow.number.getD 0) % 2 ^ 32 ≠ 0
        then Option.some (pathVal, (baudRow.number.getD 0) % 2 ^ 32)
        else Option.none)) ∧
    (∀ rows : List SettingRow, rows.length ≠ 3 → connect_boot rows = Option.some Option.none) := by
  have hd1 : ("S_devicePath" : String) ≠ "B_startOnBoot" := by decide
  have hd2 : ("N_deviceBaud" : String) ≠ "B_startOnBoot" := by decide
  have hd3 : ("N_deviceBaud" : String) ≠ "S_devicePath" := by decide
  constructor
  · have hBf : bootRow.id = "B_startOnBoot" ∧ ∃ b, bootRow.bool = Option.some b := by
      simp [SettingRow.from_row] at hB
      rw [← hB]
      exact ⟨rfl, _, rfl⟩
    have hSf : pathRow.id = "S_devicePath" ∧ pathRow.raw_value = pathVal := by
      simp [SettingRow.from_row] at hS
      rw [← hS]
      exact ⟨rfl, rfl⟩
    have hNf : baudRow.id = "N_deviceBaud" ∧ ∃ n, baudRow.number = Option.some n := by
      unfold SettingRow.from_row at hN
      simp only [show (2 : Nat) ≠ 1 by decide, if_neg, ite_false, if_pos, ite_true,
        show ((2 : Nat) = 2) from rfl] at hN
      split at hN
      · simp only [Option.some.injEq] at hN
        rw [← hN]
        exact ⟨rfl, 0, rfl⟩
      · split at hN
        · exact Option.noConfusion hN
        · simp only [Option.some.injEq] at hN
          rw [← hN]
          exact ⟨rfl, _, rfl⟩
    obtain ⟨hBid, b, hBb⟩ := hBf
    obtain ⟨hSid, hSraw⟩ := hSf
    obtain ⟨hNid, n, hNn⟩ := hNf
    simp [connect_boot, connectBootFold, hBid, hBb, hSid, hSraw, hNid, hNn, hd1, hd2, hd3]
    split <;> simp_all
  · intro rows hlen
    simp [connect_boot, hlen]

/-- C9 witness: instantiation at the boot rows with the empty device path —
the condition reduces to the (true) boolean and the non-zero baud, so the
submission happens regardless of the empty path. -/
theorem c9_connect_boot_condition_witness :
    connect_boot [c9RowBoot, c9RowPath, c9RowBaud] =
      Option.some (if c9RowBoot.bool.getD false ∧ (c9RowBaud.number.getD 0) % 2 ^ 32 ≠ 0
        then Option.some ("", (c9RowBaud.number.getD 0) % 2 ^ 32) else Option.none) :=
  (c9_connect_boot_condition "1" "" "115200" c9RowBoot c9RowPath c9RowBaud
    (by decide) (by decide) (by decide)).1

/-- C10: for every run of the serial reader outside the `Connecting` phase, the
`TerminalIn` payloads published are exactly the received lines that do NOT match
the tool-temperature pattern, in read order, and the `TempUpdate` events are
exactly the matching lines, in read order — so a temperature line yields a
`TempUpdate` and never a `TerminalIn`. -/
theorem c10_temp_lines_routing (s : ReaderState) (lines : List String)
    (s2 : ReaderState) (evs : List Evt)
    (hphase : s.phase ≠ BridgeState.CONNECTING)
    (hrun : readerRun s lines = Option.some (s2, evs)) :
    terminalReads evs = lines.filter (fun l => !tempIsMatch l) ∧
    tempUpdates evs = lines.filter (fun l => tempIsMatch l) := by
  induction lines generalizing s evs with
  | nil =>
    simp only [readerRun, Option.some.injEq] at hrun
    obtain ⟨h1, h2⟩ := Prod.mk.inj hrun
    rw [← h2]
    simp [terminalReads, tempUpdates]
  | cons l rest ih =>
    simp only [readerRun] at hrun
    have hstep : readerStep s l = readerStepOther s l := by
      simp [readerStep, hphase]
    rw [hstep] at hrun
    rcases ho : readerStepOther s l with _ | ⟨s1, evs1⟩
    · rw [ho] at hrun
      exact Option.noConfusion hrun
    · rw [ho] at hrun
      dsimp only [] at hrun
      rcases hrr : readerRun s1 rest with _ | ⟨s3, evs2⟩
      · rw [hrr] at hrun
        exact Option.noConfusion hrun
      · rw [hrr] at hrun
        simp only [Option.some.injEq] at hrun
        obtain ⟨h1, h2⟩ := Prod.mk.inj hrun
        rw [h1] at hrr
        obtain ⟨hp, hT, hU⟩ := readerStepOther_char s l s1 evs1 ho
        have hphase1 : s1.phase ≠ BridgeState.CONNECTING := by
          rw [hp]
          exact hphase
        obtain ⟨iT, iU⟩ := ih s1 evs2 hphase1 hrr
        rw [← h2]
        have hTR : terminalReads (evs1 ++ evs2) =
            terminalReads evs1 ++ terminalReads evs2 := by
          simp [terminalReads, List.filterMap_append]
        have hTU : tempUpdates (evs1 ++ evs2) = tempUpdates evs1 ++ tempUpdates evs2 := by
          simp [tempUpdates, List.filterMap_append]
        refine ⟨?_, ?_⟩
        · rw [hTR, hT, iT]
          rcases Bool.eq_false_or_eq_true (tempIsMatch l) with htm | htm <;>
            simp [List.filter_cons, htm]
        · rw [hTU, hU, iU]
          rcases Bool.eq_false_or_eq_true (tempIsMatch l) with htm | htm <;>
            simp [List.filter_cons, htm]

/-- C10 witness: a `Connected`-phase run over one temperature line and two plain
lines publishes one `TempUpdate` (for the matching line) and `TerminalIn` for
exactly the two non-matching lines, in order. -/
theorem c10_temp_lines_routing_witness :
    readerRun c10Start ["T:20.0 /0.0 B:21.3 /0.0", "echo:Unknown command", "ok"] =
      Option.some (c10Start, c10Evs) ∧
    terminalReads c10Evs = ["echo:Unknown command", "ok"] ∧
    tempUpdates c10Evs = ["T:20.0 /0.0 B:21.3 /0.0"] := by
  have hrun : readerRun c10Start ["T:20.0 /0.0 B:21.3 /0.0", "echo:Unknown command", "ok"] =
      Option.some (c10Start, c10Evs) := by decide
  have h := c10_temp_lines_routing c10Start
    ["T:20.0 /0.0 B:21.3 /0.0", "echo:Unknown command", "ok"] c10Start c10Evs
    (by decide) hrun
  refine ⟨hrun, ?_, ?_⟩
  · rw [h.1]
    decide
  · rw [h.2]
    decide
